import Mathlib

/-!
Verification of the openclaw-skills automation scripts
(`att_login.py`, `certify_login.py`, `certify_expenses.py`,
`att_download_bills.py`) against their natural-language specification.

The Python sources are shallowly embedded: the MFA poll loop becomes a
recursive function over a discrete timeline (one unit = one second; the
poll interval is the hard-coded `time.sleep(2)`), the file system during
the wait becomes a function from time to optional contents, and the
control-flow glue (status writes, exit codes, browser-session lifecycle)
becomes explicit data.  Python string primitives (`strip`, `split`,
`startswith`, slicing, `int()`) are re-implemented on `List Char` so
that every definition evaluates inside the kernel.
-/

namespace OpenClawSkills

/-! ## Python string primitives -/

/-- Python `str.strip()`: remove leading and trailing whitespace. -/
def pyStrip (s : String) : String :=
  ⟨((s.data.dropWhile Char.isWhitespace).reverse.dropWhile Char.isWhitespace).reverse⟩

/-- Python `s.split("\n")`: split on every newline; the empty string
yields `[""]`, matching CPython. -/
def splitLinesAux : List Char → List Char → List String
  | [], acc => [⟨acc.reverse⟩]
  | c :: cs, acc =>
    if c = '\n' then ⟨acc.reverse⟩ :: splitLinesAux cs []
    else splitLinesAux cs (c :: acc)

def pySplitLines (s : String) : List String :=
  splitLinesAux s.data []

/-- `charsStartWith s p`: the character list `s` begins with `p`. -/
def charsStartWith : List Char → List Char → Bool
  | _, [] => true
  | [], _ :: _ => false
  | c :: cs, p :: ps => c = p && charsStartWith cs ps

/-- Python `s.startswith(p)`. -/
def pyStartsWith (s p : String) : Bool :=
  charsStartWith s.data p.data

/-- Python slicing `s[n:]` (count in characters). -/
def pyDrop (s : String) (n : Nat) : String :=
  ⟨s.data.drop n⟩

/-- Accumulate decimal digits; `none` on the first non-digit. -/
def digitsToNat : List Char → Nat → Option Nat
  | [], acc => some acc
  | c :: cs, acc =>
    if c.isDigit then digitsToNat cs (acc * 10 + (c.toNat - 48))
    else none

/-- Python `int(s)`: optional surrounding whitespace, optional sign,
at least one decimal digit; `none` models the `ValueError` raise. -/
def pyInt? (s : String) : Option Int :=
  match (pyStrip s).data with
  | [] => none
  | '-' :: cs =>
    if cs.isEmpty then none else (digitsToNat cs 0).map (fun n => -(n : Int))
  | '+' :: cs =>
    if cs.isEmpty then none else (digitsToNat cs 0).map (fun n => (n : Int))
  | cs => (digitsToNat cs 0).map (fun n => (n : Int))

/-! ## The MFA poll loop (att_login.py lines 262-269, certify_login.py 212-219)

Python source, identical in both scripts:

    start = time.time()
    code = None
    while time.time() - start < MFA_TIMEOUT:
        if CODE_FILE.exists():
            code = CODE_FILE.read_text().strip()
            if code:
                break
        time.sleep(2)

The loop body performs only an existence check and a read of the code
file; it never writes or unlinks it.  We record each iteration's file
access as a `FileOp` so that this read-only behaviour is a provable
property of the embedding rather than an unstated assumption. -/

/-- A file-system operation on the MFA code file, tagged with the time
(in seconds since the loop started) at which it happens. -/
inductive FileOp
  | read (t : Nat)
  | write (t : Nat) (contents : String)
  | unlink (t : Nat)
deriving DecidableEq, Repr

/-- Whether a file operation is a pure read (`CODE_FILE.exists()` +
`CODE_FILE.read_text()`). -/
def FileOp.isRead : FileOp → Bool
  | .read _ => true
  | _ => false

/-- Result of the poll loop: the time at which the `while` exits, the
resolved code (`none` both when the loop times out and when every read
was empty, matching Python's falsy check `if not code`), and the trace
of file operations the loop performed. -/
structure PollResult where
  exitTime : Nat
  code : Option String
  ops : List FileOp
deriving DecidableEq, Repr

/-- One guard evaluation of the `while` loop per unit of `fuel`.
`file u` is the contents of `CODE_FILE` at time `u` (`none` = the file
does not exist); `T` is `MFA_TIMEOUT`; the guard `t < T` mirrors
`time.time() - start < MFA_TIMEOUT`, and `t + 2` is the hard-coded
`time.sleep(2)`.  Exhausted fuel returns exactly the guard-false
result, and `pollMFA` below supplies provably sufficient fuel
(`pollMFA_unfold`), so the fuel is an encoding artifact only. -/
def pollMFAGo (file : Nat → Option String) (T : Nat) : Nat → Nat → PollResult
  | 0, t => { exitTime := t, code := none, ops := [] }
  | fuel + 1, t =>
    if t < T then
      match file t with
      | some s =>
        if pyStrip s = "" then
          let r := pollMFAGo file T fuel (t + 2)
          { exitTime := r.exitTime, code := r.code, ops := FileOp.read t :: r.ops }
        else
          { exitTime := t, code := some (pyStrip s), ops := [FileOp.read t] }
      | none =>
        let r := pollMFAGo file T fuel (t + 2)
        { exitTime := r.exitTime, code := r.code, ops := FileOp.read t :: r.ops }
    else
      { exitTime := t, code := none, ops := [] }

/-- The poll loop, started at time `t` (the scripts start it at 0). -/
def pollMFA (file : Nat → Option String) (T : Nat) (t : Nat) : PollResult :=
  pollMFAGo file T (T + 1 - t) t

/-- The first poll time at or after `t` (polls happen at 0, 2, 4, …). -/
def firstEvenGE (t : Nat) : Nat :=
  if t % 2 = 0 then t else t + 1

/-- The code immediately after the poll loop (att_login.py 271-277,
certify_login.py 221-227): with no code the scripts write the status
token `ERROR_MFA_TIMEOUT` and `login` returns `False`; with a code they
write `ENTERING_MFA_CODE` and proceed to type it into the page.  The
first component is the status token written, the second whether the
wait step succeeded. -/
def mfaWaitOutcome (file : Nat → Option String) (T : Nat) : String × Bool :=
  match (pollMFA file T 0).code with
  | none => ("ERROR_MFA_TIMEOUT", false)
  | some _ => ("ENTERING_MFA_CODE", true)

/-- `sys.exit(0 if success else 1)` — the `__main__` blocks of both
login scripts and `main()` of certify_expenses.py. -/
def processExitCode (success : Bool) : Nat :=
  if success then 0 else 1

/-! ## The code file's state during the wait (att_login.py 134-136)

`login` begins with `CODE_FILE.unlink(missing_ok=True)`; afterwards the
file only exists again once an external actor writes it.  We model the
pre-existing contents, the external write schedule, and the state the
poll loop observes. -/

/-- Contents of the code file at time `t`, given its contents `init`
when the wait starts and the (chronological) list of external writes
`(time, contents)`.  The last write at or before `t` wins; with no such
write the initial contents persist. -/
def fileState (init : Option String) (writes : List (Nat × String)) (t : Nat) :
    Option String :=
  match ((writes.filter (fun w => w.1 ≤ t)).map Prod.snd).getLast? with
  | some s => some s
  | none => init

/-- The wait phase of `login`: `CODE_FILE.unlink(missing_ok=True)`
erases the pre-existing contents `pre`, so the poll loop runs against
the file state generated by the external writes alone (initial state
`none`). -/
def loginWaitAfterUnlink (pre : Option String) (writes : List (Nat × String))
    (T : Nat) : PollResult :=
  pollMFA (fileState none writes) T 0

/-! ## Configuration loading (att_login.py `load_config`, lines 33-69)

Defaults, then `cfg.update(json.loads(CONFIG_FILE.read_text()))` when
the config file exists, then environment variables (applied only when
the value is truthy, i.e. a non-empty string), then command-line
flags.  `ATT_MFA_TIMEOUT` and `--timeout=` go through `int(...)`, which
raises on non-numeric input (`none` below). -/

structure Config where
  cdp_url : String
  output_dir : String
  mfa_phone : String
  mfa_timeout : Int
  chrome_profile : String
deriving DecidableEq, Repr

/-- The keys a JSON config file may supply (`cfg.update` keeps the
default for keys not present). -/
structure FileConfig where
  cdp_url : Option String
  output_dir : Option String
  mfa_phone : Option String
  mfa_timeout : Option Int
  chrome_profile : Option String
deriving DecidableEq, Repr

/-- Built-in defaults (lines 36-42; home-relative paths abbreviated). -/
def defaultConfig : Config :=
  { cdp_url := "http://127.0.0.1:9222"
    output_dir := "~/invoices/att"
    mfa_phone := ""
    mfa_timeout := 300
    chrome_profile := "~/.att-chrome-profile" }

/-- `cfg.update(...)` with the keys present in the config file. -/
def applyFileConfig (cfg : Config) (f : FileConfig) : Config :=
  { cdp_url := f.cdp_url.getD cfg.cdp_url
    output_dir := f.output_dir.getD cfg.output_dir
    mfa_phone := f.mfa_phone.getD cfg.mfa_phone
    mfa_timeout := f.mfa_timeout.getD cfg.mfa_timeout
    chrome_profile := f.chrome_profile.getD cfg.chrome_profile }

/-- One `env_map` iteration for a string key: `val = os.environ.get(k)`
followed by `if val: cfg[key] = val`.  A missing variable (`none`) and
an empty string (falsy) both leave the old value. -/
def envOverride (val : Option String) (old : String) : String :=
  match val with
  | some v => if v = "" then old else v
  | none => old

/-- The `env_map` iteration for `mfa_timeout`: a truthy value goes
through `int(val)`; `none` models the `ValueError` killing the
process. -/
def envTimeout (val : Option String) (old : Int) : Option Int :=
  match val with
  | some v => if v = "" then some old else pyInt? v
  | none => some old

/-- The whole `env_map` loop.  The five keys are distinct, so the
iteration order of the Python dict is immaterial. -/
def applyEnv (cfg : Config) (env : String → Option String) : Option Config :=
  match envTimeout (env "ATT_MFA_TIMEOUT") cfg.mfa_timeout with
  | none => none
  | some tmo => some
    { cdp_url := envOverride (env "ATT_CDP_URL") cfg.cdp_url
      output_dir := envOverride (env "ATT_OUTPUT_DIR") cfg.output_dir
      mfa_phone := envOverride (env "ATT_MFA_PHONE") cfg.mfa_phone
      mfa_timeout := tmo
      chrome_profile := envOverride (env "ATT_CHROME_PROFILE") cfg.chrome_profile }

/-- One iteration of the CLI loop over `sys.argv[1:]` (lines 60-68).
`arg.split("=", 1)[1]` equals dropping the flag text, whose first `=`
is its last character. -/
def applyArg (cfg : Config) (arg : String) : Option Config :=
  if pyStartsWith arg "--mfa-phone=" then
    some { cfg with mfa_phone := pyDrop arg 12 }
  else if pyStartsWith arg "--timeout=" then
    match pyInt? (pyDrop arg 10) with
    | some n => some { cfg with mfa_timeout := n }
    | none => none
  else if pyStartsWith arg "--output-dir=" then
    some { cfg with output_dir := pyDrop arg 13 }
  else if pyStartsWith arg "--cdp-url=" then
    some { cfg with cdp_url := pyDrop arg 10 }
  else
    some cfg

/-- `load_config()`: defaults → config file → environment → CLI flags.
`fileCfg = none` models a missing config file. -/
def load_config (fileCfg : Option FileConfig) (env : String → Option String)
    (argv : List String) : Option Config :=
  let cfg := defaultConfig
  let cfg := match fileCfg with
    | some f => applyFileConfig cfg f
    | none => cfg
  match applyEnv cfg env with
  | none => none
  | some cfg => argv.foldlM applyArg cfg

/-! ## Configuration loading, certify variant (certify_login.py
`load_config`, lines 35-70)

Identical shape to the AT&T loader, with `CERTIFY_*` environment keys
and one extra key `pass_path` (default `"certify/login"`, env
`CERTIFY_PASS_PATH`, flag `--pass-path=`) naming the `pass` store entry
for the credential lookup. -/

structure CertifyConfig where
  cdp_url : String
  output_dir : String
  mfa_phone : String
  mfa_timeout : Int
  chrome_profile : String
  pass_path : String
deriving DecidableEq, Repr

structure CertifyFileConfig where
  cdp_url : Option String
  output_dir : Option String
  mfa_phone : Option String
  mfa_timeout : Option Int
  chrome_profile : Option String
  pass_path : Option String
deriving DecidableEq, Repr

def certifyDefaultConfig : CertifyConfig :=
  { cdp_url := "http://127.0.0.1:9222"
    output_dir := "~/expenses/certify"
    mfa_phone := ""
    mfa_timeout := 300
    chrome_profile := "~/.certify-chrome-profile"
    pass_path := "certify/login" }

def certifyApplyFileConfig (cfg : CertifyConfig) (f : CertifyFileConfig) :
    CertifyConfig :=
  { cdp_url := f.cdp_url.getD cfg.cdp_url
    output_dir := f.output_dir.getD cfg.output_dir
    mfa_phone := f.mfa_phone.getD cfg.mfa_phone
    mfa_timeout := f.mfa_timeout.getD cfg.mfa_timeout
    chrome_profile := f.chrome_profile.getD cfg.chrome_profile
    pass_path := f.pass_path.getD cfg.pass_path }

def certifyApplyEnv (cfg : CertifyConfig) (env : String → Option String) :
    Option CertifyConfig :=
  match envTimeout (env "CERTIFY_MFA_TIMEOUT") cfg.mfa_timeout with
  | none => none
  | some tmo => some
    { cdp_url := envOverride (env "CERTIFY_CDP_URL") cfg.cdp_url
      output_dir := envOverride (env "CERTIFY_OUTPUT_DIR") cfg.output_dir
      mfa_phone := envOverride (env "CERTIFY_MFA_PHONE") cfg.mfa_phone
      mfa_timeout := tmo
      chrome_profile := envOverride (env "CERTIFY_CHROME_PROFILE") cfg.chrome_profile
      pass_path := envOverride (env "CERTIFY_PASS_PATH") cfg.pass_path }

def certifyApplyArg (cfg : CertifyConfig) (arg : String) : Option CertifyConfig :=
  if pyStartsWith arg "--mfa-phone=" then
    some { cfg with mfa_phone := pyDrop arg 12 }
  else if pyStartsWith arg "--timeout=" then
    match pyInt? (pyDrop arg 10) with
    | some n => some { cfg with mfa_timeout := n }
    | none => none
  else if pyStartsWith arg "--output-dir=" then
    some { cfg with output_dir := pyDrop arg 13 }
  else if pyStartsWith arg "--cdp-url=" then
    some { cfg with cdp_url := pyDrop arg 10 }
  else if pyStartsWith arg "--pass-path=" then
    some { cfg with pass_path := pyDrop arg 12 }
  else
    some cfg

def certify_load_config (fileCfg : Option CertifyFileConfig)
    (env : String → Option String) (argv : List String) : Option CertifyConfig :=
  let cfg := certifyDefaultConfig
  let cfg := match fileCfg with
    | some f => certifyApplyFileConfig cfg f
    | none => cfg
  match certifyApplyEnv cfg env with
  | none => none
  | some cfg => argv.foldlM certifyApplyArg cfg

/-! ## Credential lookup (att_login.py `get_credentials`, lines 89-106;
certify_login.py 90-107, identical up to the configurable `PASS_PATH`)

    result = subprocess.run(["pass", "show", PATH], ...)
    lines = result.stdout.strip().split("\n")
    password = lines[0]
    username = None
    for line in lines[1:]:
        if line.startswith("user:"):
            username = line.split(":", 1)[1].strip()
    if not username or not password:
        raise ValueError(...)
    return username, password

`except (CalledProcessError, FileNotFoundError)` prints the setup
instructions and calls `sys.exit(1)`; the `ValueError` is *not* caught
and kills the process with a traceback (exit code 1 as well). -/

inductive CredResult
  | ok (username password : String)
  | exitSetupInstructions
  | valueError
deriving DecidableEq, Repr

/-- `passOutput = none` models `pass` failing (entry absent →
`CalledProcessError`; binary missing → `FileNotFoundError`). -/
def get_credentials (passOutput : Option String) : CredResult :=
  match passOutput with
  | none => .exitSetupInstructions
  | some out =>
    let lines := pySplitLines (pyStrip out)
    let password := lines.headD ""
    let username := lines.tail.foldl
      (fun acc line =>
        if pyStartsWith line "user:" then some (pyStrip (pyDrop line 5)) else acc)
      none
    match username with
    | some u => if u = "" ∨ password = "" then .valueError else .ok u password
    | none => .valueError

/-- Exit code of each credential outcome: `sys.exit(1)` for the caught
`pass` failures, interpreter exit code 1 for the uncaught
`ValueError`, and continuation for `ok`. -/
def credentialExitCode : CredResult → Option Nat
  | .ok _ _ => none
  | .exitSetupInstructions => some 1
  | .valueError => some 1

/-- The `pass` invocation of att_login.py line 92:
`subprocess.run(["pass", "show", "att/login"], ...)`.  The store path
is the fixed literal `"att/login"`; the loaded configuration is taken
as an argument here precisely to exhibit that no key of it reaches the
command. -/
def att_pass_command (cfg : Config) : List String :=
  ["pass", "show", "att/login"]

/-- The `pass` invocation of certify_login.py line 93:
`subprocess.run(["pass", "show", PASS_PATH], ...)` with
`PASS_PATH = _cfg["pass_path"]` from the loaded configuration. -/
def certify_pass_command (cfg : CertifyConfig) : List String :=
  ["pass", "show", cfg.pass_path]

/-! ## Browser-session lifecycle

Every script attaches to the already-running Chrome with
`pw.chromium.connect_over_cdp(CDP_URL)` and detaches with `pw.stop()`
(att_login.py 330-332 "pw.stop() NOT browser.close() — don't kill
Chrome!", certify_login.py 278-279, certify_expenses.py `finally`
blocks, att_download_bills.py `await pw.stop()`).  `browser.close()`
and `chromium.launch()` appear nowhere in the sources; they are listed
as operations so that their absence is a provable property of every
path. -/

inductive BrowserOp
  | attach
  | detach
  | closeBrowser
  | launchBrowser
deriving DecidableEq, Repr

/-- The execution paths of `login` (both login scripts have the same
try/except/finally shape). -/
inductive LoginPath
  | credentialFailure
  | connectFailure
  | bodySuccess
  | bodyFailure
  | bodyException
deriving DecidableEq, Repr

/-- Browser operations performed on each `login` path, in order.
`get_credentials` runs before `sync_playwright().start()`, so a
credential failure performs none; the connect-failure path still calls
`pw.stop()` before `sys.exit(1)`; the `finally` block runs `pw.stop()`
on the success, failure and exception paths alike. -/
def loginBrowserOps : LoginPath → List BrowserOp
  | .credentialFailure => []
  | .connectFailure => [.attach, .detach]
  | .bodySuccess => [.attach, .detach]
  | .bodyFailure => [.attach, .detach]
  | .bodyException => [.attach, .detach]

/-- Execution paths of the certify_expenses.py commands (via
`connect_browser` + `finally: pw.stop()`) and of
att_download_bills.py's `main` (explicit `await pw.stop()` on every
exit path). -/
inductive CmdPath
  | connectFailure
  | notLoggedIn
  | bodySuccess
  | bodyFailure
  | bodyException
deriving DecidableEq, Repr

def cmdBrowserOps : CmdPath → List BrowserOp
  | .connectFailure => [.attach, .detach]
  | .notLoggedIn => [.attach, .detach]
  | .bodySuccess => [.attach, .detach]
  | .bodyFailure => [.attach, .detach]
  | .bodyException => [.attach, .detach]

/-! ## The submit gate (certify_expenses.py `cmd_submit`, lines 570-584)

    report_id = args.report_id or (OUTPUT_DIR / "last_report_id.txt").read_text().strip()
    if not report_id or report_id == "unknown":
        print(...); return False
    if not args.confirm:
        print(...); return False
    ...
    pw, page = connect_browser()

Both early returns happen before `connect_browser()`. -/

inductive SubmitDecision
  | crashNoIdFile
  | abortNoId
  | abortNotConfirmed
  | proceed
deriving DecidableEq, Repr

/-- `args.report_id or read_text().strip()`: a non-empty CLI id
short-circuits; otherwise the last-report-id file is read (`none` =
the file is missing and `read_text()` raises). -/
def resolveReportId (argId : String) (lastIdFile : Option String) : Option String :=
  if argId = "" then lastIdFile.map pyStrip else some argId

/-- The decision prefix of `cmd_submit`, before any browser use. -/
def cmd_submit_gate (argId : String) (lastIdFile : Option String)
    (confirm : Bool) : SubmitDecision :=
  match resolveReportId argId lastIdFile with
  | none => .crashNoIdFile
  | some rid =>
    if rid = "" ∨ rid = "unknown" then .abortNoId
    else if confirm then .proceed
    else .abortNotConfirmed

/-- Browser operations per decision: only `proceed` reaches
`connect_browser()`. -/
def submitGateBrowserOps : SubmitDecision → List BrowserOp
  | .proceed => [.attach, .detach]
  | _ => []

/-- The value `cmd_submit` returns on each aborted decision (`none`:
the crash path never returns, and `proceed` is decided later by the
browser flow). -/
def submitGateReturn : SubmitDecision → Option Bool
  | .crashNoIdFile => none
  | .abortNoId => some false
  | .abortNotConfirmed => some false
  | .proceed => none

/-! ## Exit codes across the scripts (claim C6)

`sys.exit` call sites: the import guards, `get_credentials`, the CDP
connect failures, att_download_bills.py's not-logged-in check — all
`sys.exit(1)` — and the final `sys.exit(0 if success else 1)`.  An
exception escaping to the interpreter also exits 1. -/

inductive ScriptOutcome
  | missingDependency
  | credentialFailure
  | cdpConnectFailure
  | notLoggedIn
  | unhandledException
  | commandResult (success : Bool)
deriving DecidableEq, Repr

def scriptExitCode : ScriptOutcome → Nat
  | .missingDependency => 1
  | .credentialFailure => 1
  | .cdpConnectFailure => 1
  | .notLoggedIn => 1
  | .unhandledException => 1
  | .commandResult b => if b then 0 else 1

/-! ## The monthly-limit loop (certify_expenses.py `cmd_create_from_wallet`,
lines 398-484)

    monthly_totals = {}
    for month_offset in range(months_back):
        month_key = ...
        monthly_totals.setdefault(month_key, 0.0)
        for item in line_items:
            if monthly_totals[month_key] + item["amount"] > monthly_limit:
                continue            # skip
            ...
            monthly_totals[month_key] += item["amount"]

Totals are modelled as a Lean function `String → ℚ` defaulting to 0,
which makes `setdefault(month_key, 0.0)` a no-op.  Python uses `float`
arithmetic, but the guard compares exactly the value that is then
stored, so the invariant below is insensitive to the numeric type; `ℚ`
keeps the arithmetic exact.  `monthKey` abstracts the date arithmetic
`(today - timedelta(days=(off+1)*30)).strftime("%Y-%m")`, which may map
distinct offsets to the same key. -/

structure LineItem where
  description : String
  amount : ℚ
deriving DecidableEq, Repr

/-- The inner loop body for one line item of one month. -/
def processItem (limit : ℚ) (key : String) (totals : String → ℚ)
    (it : LineItem) : String → ℚ :=
  if totals key + it.amount > limit then totals
  else fun k => if k = key then totals key + it.amount else totals k

/-- The inner `for item in line_items` loop. -/
def processMonth (limit : ℚ) (key : String) (totals : String → ℚ)
    (items : List LineItem) : String → ℚ :=
  items.foldl (processItem limit key) totals

/-- The per-month totals after the whole double loop of
`cmd_create_from_wallet`. -/
def cmd_create_from_wallet_totals (limit : ℚ) (monthKey : Nat → String)
    (items : List LineItem) (monthsBack : Nat) : String → ℚ :=
  (List.range monthsBack).foldl
    (fun totals off => processMonth limit (monthKey off) totals items)
    (fun _ => 0)

/-! ## Poll-loop lemmas -/

/-- Fuel irrelevance: any two sufficient fuel amounts give the same
run, so `pollMFA` is the unique fixpoint of the loop body. -/
theorem pollMFAGo_fuel_eq (file : Nat → Option String) (T : Nat) :
    ∀ fuel₁ fuel₂ t, T ≤ t + 2 * fuel₁ → T ≤ t + 2 * fuel₂ →
      pollMFAGo file T fuel₁ t = pollMFAGo file T fuel₂ t := by
  intro fuel₁
  induction fuel₁ with
  | zero =>
    intro fuel₂ t h₁ h₂
    cases fuel₂ with
    | zero => rfl
    | succ f =>
      simp only [pollMFAGo]
      rw [if_neg (by omega)]
  | succ f₁ ih =>
    intro fuel₂ t h₁ h₂
    cases fuel₂ with
    | zero =>
      simp only [pollMFAGo]
      rw [if_neg (by omega)]
    | succ f₂ =>
      simp only [pollMFAGo]
      by_cases ht : t < T
      · rw [if_pos ht, if_pos ht]
        cases hf : file t with
        | none => simp only [ih f₂ (t + 2) (by omega) (by omega)]
        | some s =>
          by_cases hs : pyStrip s = ""
          · simp only [hs, if_pos rfl, ih f₂ (t + 2) (by omega) (by omega)]
          · simp only [if_neg hs]
      · rw [if_neg ht, if_neg ht]

/-- `pollMFA` satisfies the defining equation of the `while` loop. -/
theorem pollMFA_unfold (file : Nat → Option String) (T t : Nat) :
    pollMFA file T t =
      if t < T then
        match file t with
        | some s =>
          if pyStrip s = "" then
            let r := pollMFA file T (t + 2)
            { exitTime := r.exitTime, code := r.code, ops := FileOp.read t :: r.ops }
          else
            { exitTime := t, code := some (pyStrip s), ops := [FileOp.read t] }
        | none =>
          let r := pollMFA file T (t + 2)
          { exitTime := r.exitTime, code := r.code, ops := FileOp.read t :: r.ops }
      else
        { exitTime := t, code := none, ops := [] } := by
  unfold pollMFA
  by_cases ht : t < T
  · have hfuel : T + 1 - t = (T - t) + 1 := by omega
    rw [hfuel]
    simp only [pollMFAGo, if_pos ht]
    have hrec : pollMFAGo file T (T - t) (t + 2) = pollMFAGo file T (T + 1 - (t + 2)) (t + 2) :=
      pollMFAGo_fuel_eq file T (T - t) (T + 1 - (t + 2)) (t + 2) (by omega) (by omega)
    cases hf : file t with
    | none => simp only [hrec]
    | some s =>
      by_cases hs : pyStrip s = ""
      · simp only [hs, if_pos rfl, hrec]
      · simp only [if_neg hs]
  · rw [if_neg ht]
    cases hfuel : T + 1 - t with
    | zero => rfl
    | succ f =>
      simp only [pollMFAGo]
      rw [if_neg ht]

/-- Guard false (`time.time() - start ≥ MFA_TIMEOUT`): the loop exits
immediately with no code and no file access. -/
theorem pollMFA_eq_timeout (file : Nat → Option String) (T t : Nat) (ht : ¬ t < T) :
    pollMFA file T t = { exitTime := t, code := none, ops := [] } := by
  rw [pollMFA_unfold, if_neg ht]

/-- Guard true, file absent: read nothing, sleep 2, continue. -/
theorem pollMFA_eq_step_none (file : Nat → Option String) (T t : Nat)
    (ht : t < T) (hf : file t = none) :
    pollMFA file T t =
      { exitTime := (pollMFA file T (t + 2)).exitTime,
        code := (pollMFA file T (t + 2)).code,
        ops := FileOp.read t :: (pollMFA file T (t + 2)).ops } := by
  rw [pollMFA_unfold, if_pos ht, hf]

/-- Guard true, file present but stripping to empty: keep polling. -/
theorem pollMFA_eq_step_empty (file : Nat → Option String) (T t : Nat) (s : String)
    (ht : t < T) (hf : file t = some s) (hs : pyStrip s = "") :
    pollMFA file T t =
      { exitTime := (pollMFA file T (t + 2)).exitTime,
        code := (pollMFA file T (t + 2)).code,
        ops := FileOp.read t :: (pollMFA file T (t + 2)).ops } := by
  rw [pollMFA_unfold, if_pos ht]
  simp only [hf]
  rw [if_pos hs]

/-- Guard true, non-empty read: `break` with the stripped contents. -/
theorem pollMFA_eq_resolve (file : Nat → Option String) (T t : Nat) (s : String)
    (ht : t < T) (hf : file t = some s) (hs : ¬ pyStrip s = "") :
    pollMFA file T t =
      { exitTime := t, code := some (pyStrip s), ops := [FileOp.read t] } := by
  rw [pollMFA_unfold, if_pos ht]
  simp only [hf]
  rw [if_neg hs]

/-- The loop never exits before it starts. -/
theorem pollMFA_exitTime_ge (file : Nat → Option String) (T : Nat) :
    ∀ t, t ≤ (pollMFA file T t).exitTime := by
  have H : ∀ n t, T - t ≤ n → t ≤ (pollMFA file T t).exitTime := by
    intro n
    induction n with
    | zero =>
      intro t hn
      rw [pollMFA_eq_timeout file T t (by omega)]
    | succ n ih =>
      intro t hn
      by_cases ht : t < T
      · cases hf : file t with
        | none =>
          rw [pollMFA_eq_step_none file T t ht hf]
          have h2 := ih (t + 2) (by omega)
          show t ≤ (pollMFA file T (t + 2)).exitTime
          omega
        | some s =>
          by_cases hs : pyStrip s = ""
          · rw [pollMFA_eq_step_empty file T t s ht hf hs]
            have h2 := ih (t + 2) (by omega)
            show t ≤ (pollMFA file T (t + 2)).exitTime
            omega
          · rw [pollMFA_eq_resolve file T t s ht hf hs]
      · rw [pollMFA_eq_timeout file T t ht]
  intro t
  exact H (T - t) t le_rfl

/-- Termination bound: started at `t ≤ T + 1`, the loop exits by
`T + 1` (in particular within `T + P` of starting, `P = 2`). -/
theorem pollMFA_exitTime_le (file : Nat → Option String) (T : Nat) :
    ∀ t, t ≤ T + 1 → (pollMFA file T t).exitTime ≤ T + 1 := by
  have H : ∀ n t, T - t ≤ n → t ≤ T + 1 → (pollMFA file T t).exitTime ≤ T + 1 := by
    intro n
    induction n with
    | zero =>
      intro t hn htle
      rw [pollMFA_eq_timeout file T t (by omega)]
      exact htle
    | succ n ih =>
      intro t hn htle
      by_cases ht : t < T
      · cases hf : file t with
        | none =>
          rw [pollMFA_eq_step_none file T t ht hf]
          exact ih (t + 2) (by omega) (by omega)
        | some s =>
          by_cases hs : pyStrip s = ""
          · rw [pollMFA_eq_step_empty file T t s ht hf hs]
            exact ih (t + 2) (by omega) (by omega)
          · rw [pollMFA_eq_resolve file T t s ht hf hs]
            show t ≤ T + 1
            omega
      · rw [pollMFA_eq_timeout file T t ht]
        exact htle
  intro t
  exact H (T - t) t le_rfl

/-- If the code file never exists, the loop can only time out. -/
theorem pollMFA_code_none (file : Nat → Option String) (T : Nat)
    (hf : ∀ u, file u = none) : ∀ t, (pollMFA file T t).code = none := by
  have H : ∀ n t, T - t ≤ n → (pollMFA file T t).code = none := by
    intro n
    induction n with
    | zero =>
      intro t hn
      rw [pollMFA_eq_timeout file T t (by omega)]
    | succ n ih =>
      intro t hn
      by_cases ht : t < T
      · rw [pollMFA_eq_step_none file T t ht (hf t)]
        exact ih (t + 2) (by omega)
      · rw [pollMFA_eq_timeout file T t ht]
  intro t
  exact H (T - t) t le_rfl

/-- The loop's file operations are reads only: it never writes or
unlinks the code file. -/
theorem pollMFA_ops_read (file : Nat → Option String) (T : Nat) :
    ∀ t, ∀ op ∈ (pollMFA file T t).ops, op.isRead = true := by
  have H : ∀ n t, T - t ≤ n → ∀ op ∈ (pollMFA file T t).ops, op.isRead = true := by
    intro n
    induction n with
    | zero =>
      intro t hn
      rw [pollMFA_eq_timeout file T t (by omega)]
      intro op hop
      simp at hop
    | succ n ih =>
      intro t hn
      by_cases ht : t < T
      · cases hf : file t with
        | none =>
          rw [pollMFA_eq_step_none file T t ht hf]
          intro op hop
          rcases List.mem_cons.mp hop with h | h
          · rw [h]; rfl
          · exact ih (t + 2) (by omega) op h
        | some s =>
          by_cases hs : pyStrip s = ""
          · rw [pollMFA_eq_step_empty file T t s ht hf hs]
            intro op hop
            rcases List.mem_cons.mp hop with h | h
            · rw [h]; rfl
            · exact ih (t + 2) (by omega) op h
          · rw [pollMFA_eq_resolve file T t s ht hf hs]
            intro op hop
            rcases List.mem_cons.mp hop with h | h
            · rw [h]; rfl
            · simp at h
      · rw [pollMFA_eq_timeout file T t ht]
        intro op hop
        simp at hop
  intro t
  exact H (T - t) t le_rfl

/-- No poll happens after the exit: every read the loop performs is at
or before its exit time. -/
theorem pollMFA_read_le_exit (file : Nat → Option String) (T : Nat) :
    ∀ t u, FileOp.read u ∈ (pollMFA file T t).ops →
      u ≤ (pollMFA file T t).exitTime := by
  have H : ∀ n t, T - t ≤ n → ∀ u, FileOp.read u ∈ (pollMFA file T t).ops →
      u ≤ (pollMFA file T t).exitTime := by
    intro n
    induction n with
    | zero =>
      intro t hn u hu
      rw [pollMFA_eq_timeout file T t (by omega)] at hu
      simp at hu
    | succ n ih =>
      intro t hn u hu
      by_cases ht : t < T
      · cases hf : file t with
        | none =>
          rw [pollMFA_eq_step_none file T t ht hf] at hu ⊢
          show u ≤ (pollMFA file T (t + 2)).exitTime
          rcases List.mem_cons.mp hu with h | h
          · have hu2 : u = t := by
              have := FileOp.read.injEq u t
              simp [FileOp.read.injEq] at h
              exact h
            have := pollMFA_exitTime_ge file T (t + 2)
            omega
          · exact ih (t + 2) (by omega) u h
        | some s =>
          by_cases hs : pyStrip s = ""
          · rw [pollMFA_eq_step_empty file T t s ht hf hs] at hu ⊢
            show u ≤ (pollMFA file T (t + 2)).exitTime
            rcases List.mem_cons.mp hu with h | h
            · have hu2 : u = t := by
                simp [FileOp.read.injEq] at h
                exact h
              have := pollMFA_exitTime_ge file T (t + 2)
              omega
            · exact ih (t + 2) (by omega) u h
          · rw [pollMFA_eq_resolve file T t s ht hf hs] at hu ⊢
            show u ≤ t
            rcases List.mem_cons.mp hu with h | h
            · simp [FileOp.read.injEq] at h
              omega
            · simp at h
      · rw [pollMFA_eq_timeout file T t ht] at hu
        simp at hu
  intro t
  exact H (T - t) t le_rfl

/-- If the file does not exist before time `tw`, the loop cannot
resolve before `tw`. -/
theorem pollMFA_no_early_resolve (file : Nat → Option String) (T tw : Nat)
    (hbef : ∀ u, u < tw → file u = none) :
    ∀ t, (pollMFA file T t).code ≠ none → tw ≤ (pollMFA file T t).exitTime := by
  have H : ∀ n t, T - t ≤ n → (pollMFA file T t).code ≠ none →
      tw ≤ (pollMFA file T t).exitTime := by
    intro n
    induction n with
    | zero =>
      intro t hn hc
      rw [pollMFA_eq_timeout file T t (by omega)] at hc
      simp at hc
    | succ n ih =>
      intro t hn hc
      by_cases ht : t < T
      · cases hf : file t with
        | none =>
          rw [pollMFA_eq_step_none file T t ht hf] at hc ⊢
          exact ih (t + 2) (by omega) hc
        | some s =>
          have htw : tw ≤ t := by
            by_contra hlt
            rw [hbef t (by omega)] at hf
            exact Option.noConfusion hf
          by_cases hs : pyStrip s = ""
          · rw [pollMFA_eq_step_empty file T t s ht hf hs]
            show tw ≤ (pollMFA file T (t + 2)).exitTime
            have := pollMFA_exitTime_ge file T (t + 2)
            omega
          · rw [pollMFA_eq_resolve file T t s ht hf hs]
            show tw ≤ t
            exact htw
      · rw [pollMFA_eq_timeout file T t ht] at hc
        simp at hc
  intro t
  exact H (T - t) t le_rfl

/-- If the file is absent before `tw` and holds the (stripped,
non-empty) value `v` from `tw` on, and the first poll at or after `tw`
still falls inside the timeout window, then the loop resolves with
exactly `v` at that poll. -/
theorem pollMFA_resolves (file : Nat → Option String) (T tw : Nat) (v : String)
    (hv : pyStrip v = v) (hne : v ≠ "")
    (hbef : ∀ u, u < tw → file u = none)
    (haft : ∀ u, tw ≤ u → file u = some v)
    (hwin : firstEvenGE tw < T) :
    ∀ s, s % 2 = 0 → s ≤ firstEvenGE tw →
      (pollMFA file T s).code = some v ∧
      (pollMFA file T s).exitTime = firstEvenGE tw := by
  have hr2 : firstEvenGE tw % 2 = 0 := by
    unfold firstEvenGE
    split <;> omega
  have hrtw : tw ≤ firstEvenGE tw := by
    unfold firstEvenGE
    split <;> omega
  have hsne : ¬ pyStrip v = "" := by
    rw [hv]
    exact hne
  have base : (pollMFA file T (firstEvenGE tw)).code = some v ∧
      (pollMFA file T (firstEvenGE tw)).exitTime = firstEvenGE tw := by
    rw [pollMFA_eq_resolve file T (firstEvenGE tw) v hwin (haft _ hrtw) hsne]
    constructor
    · show some (pyStrip v) = some v
      rw [hv]
    · rfl
  have H : ∀ n s, s % 2 = 0 → s ≤ firstEvenGE tw → firstEvenGE tw - s ≤ n →
      (pollMFA file T s).code = some v ∧
      (pollMFA file T s).exitTime = firstEvenGE tw := by
    intro n
    induction n with
    | zero =>
      intro s hs2 hsle hn
      have hseq : s = firstEvenGE tw := by omega
      rw [hseq]
      exact base
    | succ n ih =>
      intro s hs2 hsle hn
      by_cases hsr : s = firstEvenGE tw
      · rw [hsr]
        exact base
      · have hst : s < tw := by
          have hdef : firstEvenGE tw = if tw % 2 = 0 then tw else tw + 1 := rfl
          by_cases htw : tw % 2 = 0
          · rw [hdef, if_pos htw] at hsle hsr
            omega
          · rw [hdef, if_neg htw] at hsle hsr
            omega
        have hslt : s < T := by omega
        rw [pollMFA_eq_step_none file T s hslt (hbef s hst)]
        have hrec := ih (s + 2) (by omega) (by omega) (by omega)
        exact ⟨hrec.1, hrec.2⟩
  intro s hs2 hsle
  exact H (firstEvenGE tw - s) s hs2 hsle le_rfl

/-! ## Invariant helpers -/

/-- `List.foldl` preserves any invariant preserved by each step. -/
theorem foldl_preserves {α β : Type} (P : β → Prop) (f : β → α → β)
    (hf : ∀ b a, P b → P (f b a)) :
    ∀ (l : List α) (b : β), P b → P (l.foldl f b) := by
  intro l
  induction l with
  | nil => intro b hb; exact hb
  | cons a l ih =>
    intro b hb
    exact ih (f b a) (hf b a hb)

/-- One line-item step keeps every per-month total at or below the
limit: the guard skips exactly the additions that would exceed it. -/
theorem processItem_preserves (limit : ℚ) (key : String) (totals : String → ℚ)
    (it : LineItem) (hinv : ∀ k, totals k ≤ limit) :
    ∀ k, processItem limit key totals it k ≤ limit := by
  intro k
  unfold processItem
  split
  · exact hinv k
  · rename_i hgt
    by_cases hk : k = key
    · simp only [hk, if_pos rfl]
      exact le_of_not_lt hgt
    · simp only [if_neg hk]
      exact hinv k

/-- The whole double loop keeps every per-month total at or below the
limit whenever the limit is non-negative. -/
theorem create_totals_le (limit : ℚ) (hlim : 0 ≤ limit)
    (monthKey : Nat → String) (items : List LineItem) (monthsBack : Nat) :
    ∀ k, cmd_create_from_wallet_totals limit monthKey items monthsBack k ≤ limit := by
  unfold cmd_create_from_wallet_totals
  refine foldl_preserves (fun totals => ∀ k, totals k ≤ limit)
    (fun totals off => processMonth limit (monthKey off) totals items)
    ?_ (List.range monthsBack) (fun _ => 0) (fun k => hlim)
  intro totals off htot
  unfold processMonth
  exact foldl_preserves (fun totals => ∀ k, totals k ≤ limit)
    (processItem limit (monthKey off)) (fun b a hb => processItem_preserves _ _ b a hb)
    items totals htot

/-- If the `for line in lines[1:]` fold returns a username, some line
of the list starts with `user:` and the username is the stripped text
after the first colon of the last such line. -/
theorem foldl_user_some (u : String) :
    ∀ (l : List String) (acc : Option String),
      l.foldl (fun acc line =>
        if pyStartsWith line "user:" then some (pyStrip (pyDrop line 5)) else acc) acc =
        some u →
      (∃ line ∈ l, pyStartsWith line "user:" = true ∧ u = pyStrip (pyDrop line 5)) ∨
        acc = some u := by
  intro l
  induction l with
  | nil =>
    intro acc h
    exact Or.inr h
  | cons c l ih =>
    intro acc h
    simp only [List.foldl_cons] at h
    rcases ih _ h with h' | h'
    · obtain ⟨line, hm, hs⟩ := h'
      exact Or.inl ⟨line, List.mem_cons_of_mem _ hm, hs⟩
    · by_cases hc : pyStartsWith c "user:" = true
      · rw [if_pos hc] at h'
        exact Or.inl ⟨c, List.mem_cons_self c l, hc, (Option.some.inj h').symm⟩
      · rw [if_neg hc] at h'
        exact Or.inr h'

/-! ## Claim theorems -/

/-- Claim C1: for every timeout bound `T` and the fixed poll interval
`P = 2`, if the code file is never created the poll loop terminates
within `T + P` of starting (it never loops forever), the scripts write
the status token `ERROR_MFA_TIMEOUT`, and `login` returns a failure
that maps to a non-zero process exit code. -/
theorem mfa_timeout_terminates (file : Nat → Option String) (T : Nat)
    (hfile : ∀ t, file t = none) :
    (pollMFA file T 0).code = none ∧
    (pollMFA file T 0).exitTime ≤ T + 2 ∧
    mfaWaitOutcome file T = ("ERROR_MFA_TIMEOUT", false) ∧
    processExitCode false = 1 := by
  have hc := pollMFA_code_none file T hfile 0
  refine ⟨hc, ?_, ?_, rfl⟩
  · have := pollMFA_exitTime_le file T 0 (by omega)
    omega
  · unfold mfaWaitOutcome
    rw [hc]

/-- Witness for C1 at `T = 5` with a never-created code file. -/
theorem mfa_timeout_terminates_witness :
    (pollMFA (fun _ => none) 5 0).code = none ∧
    (pollMFA (fun _ => none) 5 0).exitTime ≤ 5 + 2 ∧
    mfaWaitOutcome (fun _ => none) 5 = ("ERROR_MFA_TIMEOUT", false) ∧
    processExitCode false = 1 :=
  mfa_timeout_terminates (fun _ => none) 5 (fun _ => rfl)

/-- Claim C2 counterexample: the code file holds `"123456"` from
`t = 3`, strictly before the timeout `T = 4`, yet the loop never
returns it — the final guard check at `t = 4` fails before any poll
can read the value, so the loop times out with no code. -/
theorem mfa_code_before_timeout_missed :
    (fun t => if 3 ≤ t then some "123456" else none : Nat → Option String) 3 =
      some "123456" ∧
    (3 : Nat) < 4 ∧
    (pollMFA (fun t => if 3 ≤ t then some "123456" else none) 4 0).code = none := by
  decide

/-- Claim C2 (amended): for every code value `v` without surrounding
whitespace and every write time `tw` such that the first poll at or
after `tw` (polls happen every 2 s from the start) still falls strictly
inside the timeout window, the loop returns exactly `v` at that first
non-empty read, performs no poll after that read, and performs only
reads — it never writes or deletes the code file. -/
theorem mfa_resolves_on_first_nonempty_read (file : Nat → Option String)
    (T tw : Nat) (v : String)
    (hv : pyStrip v = v) (hne : v ≠ "")
    (hbef : ∀ u, u < tw → file u = none)
    (haft : ∀ u, tw ≤ u → file u = some v)
    (hwin : firstEvenGE tw < T) :
    (pollMFA file T 0).code = some v ∧
    (pollMFA file T 0).exitTime = firstEvenGE tw ∧
    (∀ u, FileOp.read u ∈ (pollMFA file T 0).ops → u ≤ firstEvenGE tw) ∧
    (∀ op ∈ (pollMFA file T 0).ops, op.isRead = true) := by
  have h := pollMFA_resolves file T tw v hv hne hbef haft hwin 0 (by omega) (by omega)
  refine ⟨h.1, h.2, ?_, pollMFA_ops_read file T 0⟩
  intro u hu
  have := pollMFA_read_le_exit file T 0 u hu
  omega

/-- Witness for C2 (amended): value `"123456"` written at `tw = 2`
with timeout `T = 4` is returned at the poll at `t = 2`. -/
theorem mfa_resolves_on_first_nonempty_read_witness :
    (pollMFA (fun u => if 2 ≤ u then some "123456" else none) 4 0).code =
      some "123456" ∧
    (pollMFA (fun u => if 2 ≤ u then some "123456" else none) 4 0).exitTime =
      firstEvenGE 2 ∧
    (∀ u, FileOp.read u ∈
        (pollMFA (fun u => if 2 ≤ u then some "123456" else none) 4 0).ops →
      u ≤ firstEvenGE 2) ∧
    (∀ op ∈ (pollMFA (fun u => if 2 ≤ u then some "123456" else none) 4 0).ops,
      op.isRead = true) :=
  mfa_resolves_on_first_nonempty_read (fun u => if 2 ≤ u then some "123456" else none)
    4 2 "123456" (by decide) (by decide)
    (fun u hu => by
      have : ¬ 2 ≤ u := by omega
      simp [this])
    (fun u hu => by simp [hu])
    (by decide)

/-- Claim C3 counterexample: with `mfa_timeout = 4`, poll interval 2,
and the code file written with `"000111"` at `t = 3`, the loop does
*not* return `"000111"`: it times out with no code. -/
theorem mfa_write_at_3_timeout_4_misses :
    (fun t => if 3 ≤ t then some "000111" else none : Nat → Option String) 3 =
      some "000111" ∧
    (pollMFA (fun t => if 3 ≤ t then some "000111" else none) 4 0).code = none := by
  decide

/-- Claim C3 (amended): with `mfa_timeout = 4`, poll interval 2 and the
code file written with `"000111"` at `t = 3`, the wait loop polls at
`t = 0` and `t = 2` only, exits at `t = 4` reporting
`ERROR_MFA_TIMEOUT` — the write lands after the last in-window poll
at `t = 2`, so it is never observed.  Had the code been written by
`t = 2`, the loop would have returned `"000111"` at `t = 2`. -/
theorem mfa_write_at_3_timeout_4_behavior :
    pollMFA (fun t => if 3 ≤ t then some "000111" else none) 4 0 =
      { exitTime := 4, code := none, ops := [FileOp.read 0, FileOp.read 2] } ∧
    mfaWaitOutcome (fun t => if 3 ≤ t then some "000111" else none) 4 =
      ("ERROR_MFA_TIMEOUT", false) ∧
    processExitCode false = 1 ∧
    pollMFA (fun t => if 2 ≤ t then some "000111" else none) 4 0 =
      { exitTime := 2, code := some "000111",
        ops := [FileOp.read 0, FileOp.read 2] } := by
  decide

/-- Claim C5: `login` unlinks the code file before waiting, so the wait
is independent of the pre-existing contents (first conjunct: the run is
literally the same function of the external writes for any two
pre-existing states); with no external writes the loop never resolves
(second conjunct); and whenever every external write happens at or
after `tw`, any resolution happens at or after `tw` (third conjunct) —
a code written before the wait started is never returned. -/
theorem login_never_sees_stale_code (pre pre' : Option String)
    (writes : List (Nat × String)) (T tw : Nat)
    (hw : ∀ w ∈ writes, tw ≤ w.1) :
    loginWaitAfterUnlink pre writes T = loginWaitAfterUnlink pre' writes T ∧
    (loginWaitAfterUnlink pre [] T).code = none ∧
    ((loginWaitAfterUnlink pre writes T).code ≠ none →
      tw ≤ (loginWaitAfterUnlink pre writes T).exitTime) := by
  refine ⟨rfl, ?_, ?_⟩
  · exact pollMFA_code_none (fileState none []) T (fun u => rfl) 0
  · intro hc
    refine pollMFA_no_early_resolve (fileState none writes) T tw ?_ 0 hc
    intro u hu
    unfold fileState
    have hfilter : writes.filter (fun w => w.1 ≤ u) = [] := by
      rw [List.filter_eq_nil_iff]
      intro w hwmem
      have := hw w hwmem
      simp only [decide_eq_true_eq]
      omega
    rw [hfilter]
    rfl

/-- Witness for C5: a stale code `"999999"` present before the run,
one external write at `t = 3`, timeout 10. -/
theorem login_never_sees_stale_code_witness :
    loginWaitAfterUnlink (some "999999") [(3, "424242")] 10 =
      loginWaitAfterUnlink none [(3, "424242")] 10 ∧
    (loginWaitAfterUnlink (some "999999") [] 10).code = none ∧
    ((loginWaitAfterUnlink (some "999999") [(3, "424242")] 10).code ≠ none →
      3 ≤ (loginWaitAfterUnlink (some "999999") [(3, "424242")] 10).exitTime) :=
  login_never_sees_stale_code (some "999999") none [(3, "424242")] 10 3 (by decide)

/-- Claim C4 counterexample: the environment variable `ATT_CDP_URL` is
*set*, but to the empty string; `load_config` keeps the config-file
value `"http://filehost:9222"` instead of overriding it, because the
Python loop guards the override with truthiness (`if val:`), not
set-ness. -/
theorem env_empty_string_does_not_override :
    (fun k => if k = "ATT_CDP_URL" then some "" else none : String → Option String)
      "ATT_CDP_URL" = some "" ∧
    (load_config
        (some { cdp_url := some "http://filehost:9222", output_dir := none,
                mfa_phone := none, mfa_timeout := none, chrome_profile := none })
        (fun k => if k = "ATT_CDP_URL" then some "" else none)
        []).map Config.cdp_url = some "http://filehost:9222" := by
  decide

/-- Claim C4 (amended): for every key, an environment variable set to a
non-empty value (for `mfa_timeout`, one that parses as an integer)
overrides the config-file value, and a command-line flag overrides
both: the loaded configuration takes each value from the environment
regardless of the file contents, and from the flag regardless of both.
`a1`–`a4` are the four recognised flags (`--mfa-phone=`, `--timeout=`,
`--output-dir=`, `--cdp-url=`; `chrome_profile` has no flag). -/
theorem config_precedence (f : FileConfig) (env : String → Option String)
    (vc vo vp vt vcp : String) (n : Int)
    (hc : env "ATT_CDP_URL" = some vc) (hc' : vc ≠ "")
    (ho : env "ATT_OUTPUT_DIR" = some vo) (ho' : vo ≠ "")
    (hp : env "ATT_MFA_PHONE" = some vp) (hp' : vp ≠ "")
    (htm : env "ATT_MFA_TIMEOUT" = some vt) (htm' : vt ≠ "") (hn : pyInt? vt = some n)
    (hcp : env "ATT_CHROME_PROFILE" = some vcp) (hcp' : vcp ≠ "")
    (a1 a2 a3 a4 : String) (m : Int)
    (h1 : pyStartsWith a1 "--mfa-phone=" = true)
    (h2a : pyStartsWith a2 "--mfa-phone=" = false)
    (h2b : pyStartsWith a2 "--timeout=" = true)
    (h2c : pyInt? (pyDrop a2 10) = some m)
    (h3a : pyStartsWith a3 "--mfa-phone=" = false)
    (h3b : pyStartsWith a3 "--timeout=" = false)
    (h3c : pyStartsWith a3 "--output-dir=" = true)
    (h4a : pyStartsWith a4 "--mfa-phone=" = false)
    (h4b : pyStartsWith a4 "--timeout=" = false)
    (h4c : pyStartsWith a4 "--output-dir=" = false)
    (h4d : pyStartsWith a4 "--cdp-url=" = true) :
    load_config (some f) env [] =
      some { cdp_url := vc, output_dir := vo, mfa_phone := vp,
             mfa_timeout := n, chrome_profile := vcp } ∧
    load_config (some f) env [a1] =
      some { cdp_url := vc, output_dir := vo, mfa_phone := pyDrop a1 12,
             mfa_timeout := n, chrome_profile := vcp } ∧
    load_config (some f) env [a2] =
      some { cdp_url := vc, output_dir := vo, mfa_phone := vp,
             mfa_timeout := m, chrome_profile := vcp } ∧
    load_config (some f) env [a3] =
      some { cdp_url := vc, output_dir := pyDrop a3 13, mfa_phone := vp,
             mfa_timeout := n, chrome_profile := vcp } ∧
    load_config (some f) env [a4] =
      some { cdp_url := pyDrop a4 10, output_dir := vo, mfa_phone := vp,
             mfa_timeout := n, chrome_profile := vcp } := by
  have hbase : applyEnv (applyFileConfig defaultConfig f) env =
      some { cdp_url := vc, output_dir := vo, mfa_phone := vp,
             mfa_timeout := n, chrome_profile := vcp } := by
    unfold applyEnv envTimeout envOverride
    rw [hc, ho, hp, htm, hcp]
    simp only [if_neg hc', if_neg ho', if_neg hp', if_neg htm', if_neg hcp', hn]
  refine ⟨?_, ?_, ?_, ?_, ?_⟩
  · simp only [load_config, hbase, List.foldlM_nil]
    rfl
  · simp only [load_config, hbase, List.foldlM_cons, List.foldlM_nil, applyArg, h1,
      if_true]
    rfl
  · simp only [load_config, hbase, List.foldlM_cons, List.foldlM_nil, applyArg, h2a,
      h2b, h2c, if_false, if_true]
    rfl
  · simp only [load_config, hbase, List.foldlM_cons, List.foldlM_nil, applyArg, h3a,
      h3b, h3c, if_false, if_true]
    rfl
  · simp only [load_config, hbase, List.foldlM_cons, List.foldlM_nil, applyArg, h4a,
      h4b, h4c, h4d, if_false, if_true]
    rfl

/-- Witness for C4 (amended) with every source set concretely: file
values, non-empty environment values, and one CLI flag per key. -/
theorem config_precedence_witness :
    load_config
        (some { cdp_url := some "http://file:1", output_dir := some "fdir",
                mfa_phone := some "1111", mfa_timeout := some 7,
                chrome_profile := some "fprof" })
        (fun k =>
          if k = "ATT_CDP_URL" then some "http://env:2"
          else if k = "ATT_OUTPUT_DIR" then some "edir"
          else if k = "ATT_MFA_PHONE" then some "2222"
          else if k = "ATT_MFA_TIMEOUT" then some "45"
          else if k = "ATT_CHROME_PROFILE" then some "eprof"
          else none)
        [] =
      some { cdp_url := "http://env:2", output_dir := "edir", mfa_phone := "2222",
             mfa_timeout := 45, chrome_profile := "eprof" } ∧
    load_config
        (some { cdp_url := some "http://file:1", output_dir := some "fdir",
                mfa_phone := some "1111", mfa_timeout := some 7,
                chrome_profile := some "fprof" })
        (fun k =>
          if k = "ATT_CDP_URL" then some "http://env:2"
          else if k = "ATT_OUTPUT_DIR" then some "edir"
          else if k = "ATT_MFA_PHONE" then some "2222"
          else if k = "ATT_MFA_TIMEOUT" then some "45"
          else if k = "ATT_CHROME_PROFILE" then some "eprof"
          else none)
        ["--mfa-phone=3333"] =
      some { cdp_url := "http://env:2", output_dir := "edir",
             mfa_phone := pyDrop "--mfa-phone=3333" 12,
             mfa_timeout := 45, chrome_profile := "eprof" } ∧
    load_config
        (some { cdp_url := some "http://file:1", output_dir := some "fdir",
                mfa_phone := some "1111", mfa_timeout := some 7,
                chrome_profile := some "fprof" })
        (fun k =>
          if k = "ATT_CDP_URL" then some "http://env:2"
          else if k = "ATT_OUTPUT_DIR" then some "edir"
          else if k = "ATT_MFA_PHONE" then some "2222"
          else if k = "ATT_MFA_TIMEOUT" then some "45"
          else if k = "ATT_CHROME_PROFILE" then some "eprof"
          else none)
        ["--timeout=60"] =
      some { cdp_url := "http://env:2", output_dir := "edir", mfa_phone := "2222",
             mfa_timeout := 60, chrome_profile := "eprof" } ∧
    load_config
        (some { cdp_url := some "http://file:1", output_dir := some "fdir",
                mfa_phone := some "1111", mfa_timeout := some 7,
                chrome_profile := some "fprof" })
        (fun k =>
          if k = "ATT_CDP_URL" then some "http://env:2"
          else if k = "ATT_OUTPUT_DIR" then some "edir"
          else if k = "ATT_MFA_PHONE" then some "2222"
          else if k = "ATT_MFA_TIMEOUT" then some "45"
          else if k = "ATT_CHROME_PROFILE" then some "eprof"
          else none)
        ["--output-dir=cdir"] =
      some { cdp_url := "http://env:2", output_dir := pyDrop "--output-dir=cdir" 13,
             mfa_phone := "2222", mfa_timeout := 45, chrome_profile := "eprof" } ∧
    load_config
        (some { cdp_url := some "http://file:1", output_dir := some "fdir",
                mfa_phone := some "1111", mfa_timeout := some 7,
                chrome_profile := some "fprof" })
        (fun k =>
          if k = "ATT_CDP_URL" then some "http://env:2"
          else if k = "ATT_OUTPUT_DIR" then some "edir"
          else if k = "ATT_MFA_PHONE" then some "2222"
          else if k = "ATT_MFA_TIMEOUT" then some "45"
          else if k = "ATT_CHROME_PROFILE" then some "eprof"
          else none)
        ["--cdp-url=http://cli:3"] =
      some { cdp_url := pyDrop "--cdp-url=http://cli:3" 10, output_dir := "edir",
             mfa_phone := "2222", mfa_timeout := 45, chrome_profile := "eprof" } :=
  config_precedence
    { cdp_url := some "http://file:1", output_dir := some "fdir",
      mfa_phone := some "1111", mfa_timeout := some 7,
      chrome_profile := some "fprof" }
    (fun k =>
      if k = "ATT_CDP_URL" then some "http://env:2"
      else if k = "ATT_OUTPUT_DIR" then some "edir"
      else if k = "ATT_MFA_PHONE" then some "2222"
      else if k = "ATT_MFA_TIMEOUT" then some "45"
      else if k = "ATT_CHROME_PROFILE" then some "eprof"
      else none)
    "http://env:2" "edir" "2222" "45" "eprof" 45
    (by decide) (by decide) (by decide) (by decide) (by decide) (by decide)
    (by decide) (by decide) (by decide) (by decide) (by decide)
    "--mfa-phone=3333" "--timeout=60" "--output-dir=cdir" "--cdp-url=http://cli:3" 60
    (by decide) (by decide) (by decide) (by decide) (by decide) (by decide)
    (by decide) (by decide) (by decide) (by decide) (by decide)

/-- Claim C6: across the modelled exit sites of all scripts, the exit
code is 0 exactly when the overall operation succeeds, 1 on every
unrecoverable failure, and no value other than 0 or 1 occurs. -/
theorem exit_code_contract :
    ∀ o : ScriptOutcome,
      (scriptExitCode o = 0 ∨ scriptExitCode o = 1) ∧
      (scriptExitCode o = 0 ↔ o = ScriptOutcome.commandResult true) := by
  intro o
  cases o with
  | commandResult b => cases b <;> simp [scriptExitCode]
  | missingDependency => simp [scriptExitCode]
  | credentialFailure => simp [scriptExitCode]
  | cdpConnectFailure => simp [scriptExitCode]
  | notLoggedIn => simp [scriptExitCode]
  | unhandledException => simp [scriptExitCode]

/-- Claim C7: on every execution path of every script — including the
exception and connect-failure paths — the browser-session operations
contain no `browser.close()` and no `chromium.launch()`, and every
path that touched the session ends by detaching (`pw.stop()`). -/
theorem sessions_only_detached :
    (∀ p : LoginPath,
      BrowserOp.closeBrowser ∉ loginBrowserOps p ∧
      BrowserOp.launchBrowser ∉ loginBrowserOps p ∧
      (loginBrowserOps p = [] ∨
        (loginBrowserOps p).getLast? = some BrowserOp.detach)) ∧
    (∀ q : CmdPath,
      BrowserOp.closeBrowser ∉ cmdBrowserOps q ∧
      BrowserOp.launchBrowser ∉ cmdBrowserOps q ∧
      (cmdBrowserOps q).getLast? = some BrowserOp.detach) ∧
    (∀ d : SubmitDecision,
      BrowserOp.closeBrowser ∉ submitGateBrowserOps d ∧
      BrowserOp.launchBrowser ∉ submitGateBrowserOps d ∧
      (submitGateBrowserOps d = [] ∨
        (submitGateBrowserOps d).getLast? = some BrowserOp.detach)) := by
  refine ⟨fun p => ?_, fun q => ?_, fun d => ?_⟩
  · cases p <;> simp [loginBrowserOps]
  · cases q <;> simp [cmdBrowserOps]
  · cases d <;> simp [submitGateBrowserOps]

/-- Claim C8 counterexample: in att_login.py the `pass` store path is
the hard-coded literal `"att/login"` — the invocation is identical for
two configurations differing in every key, so the lookup path is not
configurable in that cited script (certify_login.py's, by contrast,
follows its `pass_path` configuration). -/
theorem att_pass_path_hardcoded :
    att_pass_command
        { cdp_url := "http://other:9333", output_dir := "elsewhere",
          mfa_phone := "9999", mfa_timeout := 60, chrome_profile := "prof2" } =
      att_pass_command defaultConfig ∧
    att_pass_command defaultConfig = ["pass", "show", "att/login"] ∧
    certify_pass_command
        { cdp_url := "http://other:9333", output_dir := "elsewhere",
          mfa_phone := "9999", mfa_timeout := 60, chrome_profile := "prof2",
          pass_path := "team/certify" } = ["pass", "show", "team/certify"] := by
  decide

/-- Claim C8 (amended): a failed `pass` lookup (entry absent or tool
missing) fails fast — setup instructions, exit code 1, and no browser
operation is ever performed (`get_credentials` runs before the browser
client starts).  On success the password is the first line of the
stripped store output and the username comes from a subsequent line
starting with `user:`.  The store path is configurable in the certify
script — the `CERTIFY_PASS_PATH` environment variable and the
`--pass-path=` flag both reach the `pass show` command — while the
AT&T script invokes `pass show` on the fixed path `att/login`
whatever its configuration. -/
theorem get_credentials_contract (out u p : String)
    (h : get_credentials (some out) = CredResult.ok u p)
    (cfgA : Config)
    (f : CertifyFileConfig) (env : String → Option String) (pv : String)
    (hpv : env "CERTIFY_PASS_PATH" = some pv) (hpv' : pv ≠ "")
    (htm : env "CERTIFY_MFA_TIMEOUT" = none)
    (arg : String)
    (ha : pyStartsWith arg "--mfa-phone=" = false)
    (hb : pyStartsWith arg "--timeout=" = false)
    (hco : pyStartsWith arg "--output-dir=" = false)
    (hd : pyStartsWith arg "--cdp-url=" = false)
    (he : pyStartsWith arg "--pass-path=" = true) :
    get_credentials none = CredResult.exitSetupInstructions ∧
    credentialExitCode CredResult.exitSetupInstructions = some 1 ∧
    loginBrowserOps LoginPath.credentialFailure = [] ∧
    p = (pySplitLines (pyStrip out)).headD "" ∧
    (∃ line ∈ (pySplitLines (pyStrip out)).tail,
      pyStartsWith line "user:" = true ∧ u = pyStrip (pyDrop line 5)) ∧
    att_pass_command cfgA = ["pass", "show", "att/login"] ∧
    (certify_load_config (some f) env []).map certify_pass_command =
      some ["pass", "show", pv] ∧
    (certify_load_config (some f) env [arg]).map certify_pass_command =
      some ["pass", "show", pyDrop arg 12] := by
  have hbase : certifyApplyEnv (certifyApplyFileConfig certifyDefaultConfig f) env =
      some { cdp_url := envOverride (env "CERTIFY_CDP_URL")
               (certifyApplyFileConfig certifyDefaultConfig f).cdp_url,
             output_dir := envOverride (env "CERTIFY_OUTPUT_DIR")
               (certifyApplyFileConfig certifyDefaultConfig f).output_dir,
             mfa_phone := envOverride (env "CERTIFY_MFA_PHONE")
               (certifyApplyFileConfig certifyDefaultConfig f).mfa_phone,
             mfa_timeout := (certifyApplyFileConfig certifyDefaultConfig f).mfa_timeout,
             chrome_profile := envOverride (env "CERTIFY_CHROME_PROFILE")
               (certifyApplyFileConfig certifyDefaultConfig f).chrome_profile,
             pass_path := pv } := by
    unfold certifyApplyEnv envTimeout
    rw [htm]
    have hpp : envOverride (env "CERTIFY_PASS_PATH")
        (certifyApplyFileConfig certifyDefaultConfig f).pass_path = pv := by
      unfold envOverride
      simp only [hpv]
      rw [if_neg hpv']
    rw [hpp]
  have hparse : p = (pySplitLines (pyStrip out)).headD "" ∧
      ∃ line ∈ (pySplitLines (pyStrip out)).tail,
        pyStartsWith line "user:" = true ∧ u = pyStrip (pyDrop line 5) := by
    simp only [get_credentials] at h
    rcases hu : (pySplitLines (pyStrip out)).tail.foldl
        (fun acc line =>
          if pyStartsWith line "user:" then some (pyStrip (pyDrop line 5)) else acc)
        none with _ | u'
    · simp only [hu] at h
      exact absurd h (by simp)
    · simp only [hu] at h
      by_cases hbad : u' = "" ∨ (pySplitLines (pyStrip out)).headD "" = ""
      · rw [if_pos hbad] at h
        exact absurd h (by simp)
      · rw [if_neg hbad] at h
        simp only [CredResult.ok.injEq] at h
        refine ⟨h.2.symm, ?_⟩
        rw [h.1] at hu
        rcases foldl_user_some u (pySplitLines (pyStrip out)).tail none hu with
          hex | habs
        · exact hex
        · exact absurd habs (by simp)
  refine ⟨rfl, rfl, rfl, hparse.1, hparse.2, rfl, ?_, ?_⟩
  · simp only [certify_load_config, hbase, List.foldlM_nil]
    rfl
  · simp only [certify_load_config, hbase, List.foldlM_cons, List.foldlM_nil,
      certifyApplyArg, ha, hb, hco, hd, he, if_false, if_true]
    rfl

/-- Witness for C8 (amended): store output with password `"hunter2"`
on line 1 and `user: me@example.com` on line 2; certify pass path set
by environment and overridden by flag; att command fixed under the
default configuration. -/
theorem get_credentials_contract_witness :
    get_credentials none = CredResult.exitSetupInstructions ∧
    credentialExitCode CredResult.exitSetupInstructions = some 1 ∧
    loginBrowserOps LoginPath.credentialFailure = [] ∧
    "hunter2" = (pySplitLines (pyStrip "hunter2\nuser: me@example.com")).headD "" ∧
    (∃ line ∈ (pySplitLines (pyStrip "hunter2\nuser: me@example.com")).tail,
      pyStartsWith line "user:" = true ∧
        "me@example.com" = pyStrip (pyDrop line 5)) ∧
    att_pass_command defaultConfig = ["pass", "show", "att/login"] ∧
    (certify_load_config
        (some { cdp_url := none, output_dir := none, mfa_phone := none,
                mfa_timeout := none, chrome_profile := none, pass_path := none })
        (fun k => if k = "CERTIFY_PASS_PATH" then some "work/certify" else none)
        []).map certify_pass_command = some ["pass", "show", "work/certify"] ∧
    (certify_load_config
        (some { cdp_url := none, output_dir := none, mfa_phone := none,
                mfa_timeout := none, chrome_profile := none, pass_path := none })
        (fun k => if k = "CERTIFY_PASS_PATH" then some "work/certify" else none)
        ["--pass-path=alt/path"]).map certify_pass_command =
      some ["pass", "show", pyDrop "--pass-path=alt/path" 12] :=
  get_credentials_contract "hunter2\nuser: me@example.com" "me@example.com" "hunter2"
    (by decide) defaultConfig
    { cdp_url := none, output_dir := none, mfa_phone := none,
      mfa_timeout := none, chrome_profile := none, pass_path := none }
    (fun k => if k = "CERTIFY_PASS_PATH" then some "work/certify" else none)
    "work/certify" (by decide) (by decide) (by decide)
    "--pass-path=alt/path" (by decide) (by decide) (by decide) (by decide) (by decide)

/-- Claim C9 counterexample: with the configured `monthly_limit = -1`
and a single line item of amount 1, the guard skips the item, yet the
month's running total — initialised to 0 by `setdefault` — already
exceeds the limit after the iteration.  Skipping can never bring a
total below a negative limit, so the invariant does not hold for
every configuration. -/
theorem monthly_total_exceeds_negative_limit :
    cmd_create_from_wallet_totals (-1) (fun _ => "2025-08")
      [{ description := "Cellphone", amount := 1 }] 1 "2025-08" = 0 ∧
    ¬ (cmd_create_from_wallet_totals (-1) (fun _ => "2025-08")
      [{ description := "Cellphone", amount := 1 }] 1 "2025-08" ≤ -1) := by
  have hr : List.range 1 = [0] := rfl
  have h : cmd_create_from_wallet_totals (-1) (fun _ => "2025-08")
      [{ description := "Cellphone", amount := 1 }] 1 "2025-08" = 0 := by
    norm_num [cmd_create_from_wallet_totals, processMonth, processItem, hr]
  refine ⟨h, ?_⟩
  rw [h]
  norm_num

/-- Claim C9 (amended): in `cmd_create_from_wallet`, with a
non-negative monthly limit (the shipped default is 120.0), every
line-item iteration preserves `per-month total ≤ limit` — a line item
that would push the total above the limit is skipped, not added — and
the totals after the whole double loop respect the limit, for every
`line_items` list, every `months_back`, and every month-key
assignment.  With a negative limit the initially-zero total already
exceeds the limit. -/
theorem monthly_limit_respected (limit : ℚ) (hlim : 0 ≤ limit)
    (key : String) (totals : String → ℚ) (it : LineItem)
    (hinv : ∀ k, totals k ≤ limit)
    (monthKey : Nat → String) (items : List LineItem) (monthsBack : Nat)
    (k k' : String) :
    processItem limit key totals it k' ≤ limit ∧
    cmd_create_from_wallet_totals limit monthKey items monthsBack k ≤ limit :=
  ⟨processItem_preserves limit key totals it hinv k',
   create_totals_le limit hlim monthKey items monthsBack k⟩

/-- Witness for C9 with the default configuration: limit 120,
line items Cellphone 100 and Internet 20, two months. -/
theorem monthly_limit_respected_witness :
    processItem 120 "2025-08" (fun _ => 0)
      { description := "Cellphone", amount := 100 } "2025-08" ≤ 120 ∧
    cmd_create_from_wallet_totals 120 (fun _ => "2025-08")
      [{ description := "Cellphone", amount := 100 },
       { description := "Internet", amount := 20 }]
      2 "2025-08" ≤ 120 :=
  monthly_limit_respected 120 (by norm_num) "2025-08" (fun _ => 0)
    { description := "Cellphone", amount := 100 } (fun k => by norm_num)
    (fun _ => "2025-08")
    [{ description := "Cellphone", amount := 100 },
     { description := "Internet", amount := 20 }]
    2 "2025-08" "2025-08"

/-- Claim C10: invoked without `--confirm`, `cmd_submit` never reaches
`connect_browser()` — the decision is never `proceed`, the browser-op
trace is empty (so no navigation, clicking, or submission can touch
the report), the command never returns `True`, and any returned value
is `False`, which `main` maps to exit code 1. -/
theorem submit_without_confirm_is_inert (argId : String)
    (lastIdFile : Option String) :
    cmd_submit_gate argId lastIdFile false ≠ SubmitDecision.proceed ∧
    submitGateBrowserOps (cmd_submit_gate argId lastIdFile false) = [] ∧
    submitGateReturn (cmd_submit_gate argId lastIdFile false) ≠ some true ∧
    (cmd_submit_gate argId lastIdFile false = SubmitDecision.crashNoIdFile ∨
      submitGateReturn (cmd_submit_gate argId lastIdFile false) = some false) ∧
    processExitCode false = 1 := by
  cases h : resolveReportId argId lastIdFile with
  | none =>
    simp [cmd_submit_gate, h, submitGateBrowserOps, submitGateReturn, processExitCode]
  | some rid =>
    by_cases hr : rid = "" ∨ rid = "unknown"
    · simp [cmd_submit_gate, h, hr, submitGateBrowserOps, submitGateReturn,
        processExitCode]
    · simp [cmd_submit_gate, h, hr, submitGateBrowserOps, submitGateReturn,
        processExitCode]

end OpenClawSkills
